import Mathlib

/-!
Verification of the banking document pipeline's extraction and KYC/AML
validation logic (shallow embedding of `src/services/validator.py`,
`kyc_processor.py`, `cheque_processor.py`, `invoice_processor.py` and
`extractor.py`).  Machine floats of the source are modelled as rationals;
Python `date.today()` is an explicit `Date` parameter; Python's silent
exception handling is modelled by total functions returning `Option`.
-/

namespace BankingPipeline

/- The Batteries rational arithmetic operations are `@[irreducible]`, which
blocks `decide`-based evaluation of concrete validator runs; restore the
default reducibility for this development. -/
set_option allowUnsafeReducibility true
attribute [local semireducible] Rat.add Rat.sub Rat.mul Rat.div Rat.inv
  Rat.ofScientific

/-! ## String utilities (models of Python `in`, `lower`, `strip`) -/

/-- Does `needle` occur as a prefix of `hay` (character lists)? -/
def strStarts : List Char → List Char → Bool
  | [], _ => true
  | _ :: _, [] => false
  | a :: n, b :: h => a = b && strStarts n h

/-- Model of Python's substring test `needle in hay`. -/
def strHasL (hay needle : List Char) : Bool :=
  match hay with
  | [] => strStarts needle []
  | _ :: t => strStarts needle hay || strHasL t needle

/-- Substring test on `String`s. -/
def strHas (hay needle : String) : Bool :=
  strHasL hay.toList needle.toList

/-- Model of Python `str.lower()` (ASCII case folding, as in the source's
data). -/
def pyLower (s : String) : String :=
  String.mk (s.toList.map Char.toLower)

/-- Model of Python `str.strip()`: remove leading and trailing whitespace. -/
def pyStrip (s : String) : String :=
  String.mk
    (((s.toList.dropWhile Char.isWhitespace).reverse.dropWhile
      Char.isWhitespace).reverse)

/-- Python `min` on two rationals (`min(risk_score, 1.0)`). -/
def pymin (a b : ℚ) : ℚ :=
  if a ≤ b then a else b

/-- Python `abs` on a rational. -/
def pyabs (q : ℚ) : ℚ :=
  if q < 0 then -q else q

/-- Numeric value of a list of decimal digit characters. -/
def natOfDigits (cs : List Char) : ℕ :=
  cs.foldl (fun n c => 10 * n + (c.toNat - 48)) 0

/-! ## Dates and the model of `datetime.strptime` for the three formats
tried by `_check_id_validity` -/

/-- A calendar date (year, month, day), as produced by `datetime.date`. -/
structure Date where
  year : ℕ
  month : ℕ
  day : ℕ
deriving DecidableEq, Repr

/-- Python `date` comparison `a < b` (lexicographic on year, month, day). -/
def dateLt (a b : Date) : Bool :=
  if a.year ≠ b.year then decide (a.year < b.year)
  else if a.month ≠ b.month then decide (a.month < b.month)
  else decide (a.day < b.day)

/-- Gregorian leap-year rule used by `datetime`. -/
def isLeapYear (y : ℕ) : Bool :=
  y % 4 = 0 && (y % 100 ≠ 0 || y % 400 = 0)

/-- Number of days in a month, as enforced by the `datetime` constructor. -/
def daysInMonth (y m : ℕ) : ℕ :=
  if m = 2 then (if isLeapYear y then 29 else 28)
  else if m = 4 ∨ m = 6 ∨ m = 9 ∨ m = 11 then 30
  else 31

/-- The `datetime` constructor: valid iff `1 ≤ year ≤ 9999` and the day
exists in the month (month bounds are checked by the format regex). -/
def mkValidDate (y m d : ℕ) : Option Date :=
  if 1 ≤ y ∧ y ≤ 9999 ∧ d ≤ daysInMonth y m then some ⟨y, m, d⟩ else none

/-- Read exactly four digits (the `%Y` directive). -/
def readNum4 (cs : List Char) : Option (ℕ × List Char) :=
  match cs with
  | a :: b :: c :: d :: rest =>
      if a.isDigit && b.isDigit && c.isDigit && d.isDigit then
        some (natOfDigits [a, b, c, d], rest)
      else none
  | _ => none

/-- Read a one- or two-digit number in `[lo, hi]` (the `%m` / `%d`
directives: their regexes accept exactly the 1–2 digit strings whose value
is in range, and the run of digits must stop at the separator). -/
def readNum12 (lo hi : ℕ) (cs : List Char) : Option (ℕ × List Char) :=
  let run := cs.takeWhile Char.isDigit
  if (run.length = 1 ∨ run.length = 2) ∧
      lo ≤ natOfDigits run ∧ natOfDigits run ≤ hi then
    some (natOfDigits run, cs.drop run.length)
  else none

/-- Consume one expected literal character of the format. -/
def expectChar (c : Char) (cs : List Char) : Option (List Char) :=
  match cs with
  | x :: rest => if x = c then some rest else none
  | [] => none

/-- Model of `datetime.strptime(s, "%Y-%m-%d").date()`. -/
def parse_ymd (s : String) : Option Date := do
  let (y, r1) ← readNum4 s.toList
  let r2 ← expectChar '-' r1
  let (m, r3) ← readNum12 1 12 r2
  let r4 ← expectChar '-' r3
  let (d, r5) ← readNum12 1 31 r4
  if r5 = [] then mkValidDate y m d else none

/-- Model of `datetime.strptime(s, "%d/%m/%Y").date()`. -/
def parse_dmy (s : String) : Option Date := do
  let (d, r1) ← readNum12 1 31 s.toList
  let r2 ← expectChar '/' r1
  let (m, r3) ← readNum12 1 12 r2
  let r4 ← expectChar '/' r3
  let (y, r5) ← readNum4 r4
  if r5 = [] then mkValidDate y m d else none

/-- Model of `datetime.strptime(s, "%m/%d/%Y").date()`. -/
def parse_mdy (s : String) : Option Date := do
  let (m, r1) ← readNum12 1 12 s.toList
  let r2 ← expectChar '/' r1
  let (d, r3) ← readNum12 1 31 r2
  let r4 ← expectChar '/' r3
  let (y, r5) ← readNum4 r4
  if r5 = [] then mkValidDate y m d else none

/-- The format loop of `_check_id_validity`: formats `%Y-%m-%d`, `%d/%m/%Y`,
`%m/%d/%Y` are tried in order; the first successful parse decides. -/
def parseExpiryFirst (s : String) : Option Date :=
  match parse_ymd s with
  | some d => some d
  | none =>
    match parse_dmy s with
    | some d => some d
    | none => parse_mdy s

/-! ## Field model (`src/models/schemas.py`) -/

/-- `ExtractedField` of `schemas.py`: one extracted datum. -/
structure ExtractedField where
  field_name : String
  value : Option String := none
  confidence : ℚ
  bounding_box : Option (List ℚ) := none
  page_number : Option Int := none
deriving DecidableEq, Repr

/-- `ValidationStatus` of `enums.py`. -/
inductive ValidationStatus where
  | passed
  | failed
  | needs_manual_review
  | pending
deriving DecidableEq, Repr

/-- `ValidationResult` of `schemas.py`. -/
structure ValidationResult where
  status : ValidationStatus
  checks_passed : List String
  checks_failed : List String
  risk_score : ℚ
  flags : List String
  recommendation : String
deriving DecidableEq, Repr

/-- The field map `{f.field_name: f for f in extracted_fields}` built by
`validate_kyc`: a Python dict comprehension, so the last field with a given
name wins. -/
abbrev FieldMap := String → Option ExtractedField

/-- Build the field map (dict comprehension: last write wins). -/
def buildFieldMap (fields : List ExtractedField) : FieldMap :=
  fields.foldl (fun m f => fun k => if k = f.field_name then some f else m k)
    (fun _ => none)

/-- Python `a or b` on two `dict.get` results (field objects are truthy). -/
def orO (a b : Option ExtractedField) : Option ExtractedField :=
  match a with
  | some f => some f
  | none => b

/-! ## KYC/AML validator (`src/services/validator.py`) -/

/-- Minimum required KYC fields (UAE Central Bank AML requirements). -/
def REQUIRED_KYC_FIELDS : List String :=
  ["customer_name", "date_of_birth", "nationality", "source_of_funds",
   "occupation"]

/-- Simplified sanctions list. -/
def SANCTIONS_KEYWORDS : List String :=
  ["sanctioned_entity_1", "sanctioned_entity_2"]

/-- High-risk jurisdictions per FATF. -/
def FATF_HIGH_RISK : List String :=
  ["Iran", "North Korea", "Myanmar"]

/-- FATF increased-monitoring jurisdictions. -/
def FATF_INCREASED_MONITORING : List String :=
  ["Syria", "Yemen", "South Sudan", "Libya", "Haiti", "Nigeria",
   "Philippines"]

/-- Output of one check: its boolean result plus the strings it appended to
`checks_passed`, `checks_failed` and `flags` (the Python methods append to
caller-owned lists; we return the appended deltas). -/
structure CheckOut where
  ok : Bool
  passed : List String
  failed : List String
  flags : List String
deriving DecidableEq, Repr

/-- Python truthiness of `field in map and map[field].value`: present with a
non-`None`, non-empty value. -/
def presentNonEmpty (o : Option ExtractedField) : Bool :=
  match o with
  | some f =>
    match f.value with
    | some v => decide (v ≠ "")
    | none => false
  | none => false

/-- `_check_field_completeness`. -/
def check_field_completeness (m : FieldMap) : CheckOut :=
  let missing := REQUIRED_KYC_FIELDS.filter (fun k => !presentNonEmpty (m k))
  if missing.isEmpty then
    ⟨true, ["All required KYC fields present"], [], []⟩
  else
    ⟨false, [],
      ["Missing required fields: " ++ String.intercalate ", " missing], []⟩

/-- The expiry field used by `_check_id_validity`:
`field_map.get("expiry_date") or field_map.get("id_expiry")`. -/
def selectExpiry (m : FieldMap) : Option ExtractedField :=
  orO (m "expiry_date") (m "id_expiry")

/-- `_check_id_validity`: fails only when the selected expiry field has a
non-empty value that one of the three formats parses to a date strictly
before today; all other cases (no field, empty value, unparseable value,
not-expired date) pass.  Total: the `try/except` of the source never
propagates an error. -/
def check_id_validity (today : Date) (m : FieldMap) : CheckOut :=
  match selectExpiry m with
  | some f =>
    match f.value with
    | some v =>
      if v = "" then
        ⟨true, ["ID expiry check skipped — no expiry field found"], [], []⟩
      else
        match parseExpiryFirst v with
        | some expiry =>
          if dateLt expiry today then
            ⟨false, [], ["ID document expired: " ++ v], []⟩
          else
            ⟨true, ["ID document is valid and not expired"], [], []⟩
        | none =>
          ⟨true, ["ID expiry date format unrecognized — manual check needed"],
            [], []⟩
    | none => ⟨true, ["ID expiry check skipped — no expiry field found"], [], []⟩
  | none => ⟨true, ["ID expiry check skipped — no expiry field found"], [], []⟩

/-- `_check_sanctions`: screens `customer_name` (or `full_name`) against the
sanctions keywords, case-insensitively. -/
def check_sanctions (m : FieldMap) : CheckOut :=
  match orO (m "customer_name") (m "full_name") with
  | some f =>
    match f.value with
    | some v =>
      if v = "" then
        ⟨true, ["Sanctions screening skipped — no name found"], [], []⟩
      else
        let nameLower := pyLower v
        if SANCTIONS_KEYWORDS.any (fun s => strHas nameLower (pyLower s)) then
          ⟨false, [], ["SANCTIONS MATCH: " ++ v], ["SANCTIONS_HIT"]⟩
        else
          ⟨true, ["Sanctions screening: CLEAR"], [], []⟩
    | none => ⟨true, ["Sanctions screening skipped — no name found"], [], []⟩
  | none => ⟨true, ["Sanctions screening skipped — no name found"], [], []⟩

/-- `_check_jurisdiction`: nationality against the two FATF lists. -/
def check_jurisdiction (m : FieldMap) : CheckOut :=
  match m "nationality" with
  | some f =>
    match f.value with
    | some v =>
      if v = "" then
        ⟨true, ["Jurisdiction check skipped — no nationality found"], [], []⟩
      else
        let country := pyStrip v
        if FATF_HIGH_RISK.contains country then
          ⟨false, [], ["FATF High-Risk Jurisdiction: " ++ country],
            ["FATF_HIGH_RISK"]⟩
        else if FATF_INCREASED_MONITORING.contains country then
          ⟨false, [], ["FATF Increased Monitoring: " ++ country],
            ["FATF_MONITORING"]⟩
        else
          ⟨true, ["Jurisdiction check: " ++ country ++ " — CLEAR"], [], []⟩
    | none => ⟨true, ["Jurisdiction check skipped — no nationality found"], [], []⟩
  | none => ⟨true, ["Jurisdiction check skipped — no nationality found"], [], []⟩

/-- `_check_pep_status`. -/
def check_pep_status (m : FieldMap) : CheckOut :=
  match m "politically_exposed" with
  | some f =>
    match f.value with
    | some v =>
      if v = "" then
        ⟨true, ["PEP check skipped — no PEP field found"], [], []⟩
      else if pyLower v = "yes" ∨ pyLower v = "true" ∨ pyLower v = "1" then
        ⟨false, [], ["Customer is a Politically Exposed Person (PEP)"],
          ["PEP_IDENTIFIED"]⟩
      else
        ⟨true, ["PEP check: Not a PEP"], [], []⟩
    | none => ⟨true, ["PEP check skipped — no PEP field found"], [], []⟩
  | none => ⟨true, ["PEP check skipped — no PEP field found"], [], []⟩

/-- `_check_confidence_levels`: operates on the raw field list, not the map. -/
def check_confidence_levels (fields : List ExtractedField) : CheckOut :=
  let lowConfidenceFields := fields.filter
    (fun f => decide (f.confidence < 0.80) &&
      REQUIRED_KYC_FIELDS.contains f.field_name)
  if lowConfidenceFields.isEmpty then
    ⟨true, ["All critical fields meet confidence threshold"], [], []⟩
  else
    ⟨false, [],
      ["Low confidence on critical fields: " ++
        String.intercalate ", " (lowConfidenceFields.map (·.field_name))], []⟩

/-- The verdict branch at the end of `validate_kyc`: any failed check means
at least manual review, and a (clamped) risk score of at least 0.5 means
rejection. -/
def deriveVerdict (checksFailed : List String) (riskScore : ℚ) :
    ValidationStatus × String :=
  if checksFailed.isEmpty then
    (ValidationStatus.passed, "APPROVED — All compliance checks passed.")
  else if (0.5 : ℚ) ≤ riskScore then
    (ValidationStatus.failed,
      "REJECT — High-risk indicators detected. Escalate to compliance.")
  else
    (ValidationStatus.needs_manual_review,
      "REVIEW — Some checks failed. Manual review required by compliance officer.")

/-- `KYCAMLValidator.validate_kyc`: runs the six checks in order, sums the
failure deltas, clamps the score to `1.0`, and derives the verdict.  The
`document_type` argument is accepted (as in the source) but unused. -/
def validate_kyc (today : Date) (extracted_fields : List ExtractedField)
    (document_type : String) : ValidationResult :=
  let _ := document_type
  let m := buildFieldMap extracted_fields
  let c1 := check_field_completeness m
  let c2 := check_id_validity today m
  let c3 := check_sanctions m
  let c4 := check_jurisdiction m
  let c5 := check_pep_status m
  let c6 := check_confidence_levels extracted_fields
  let riskScore : ℚ :=
    (if c1.ok then 0 else 0.15) + (if c2.ok then 0 else 0.1) +
    (if c3.ok then 0 else 0.5) + (if c4.ok then 0 else 0.3) +
    (if c5.ok then 0 else 0.25) + (if c6.ok then 0 else 0.1)
  let riskScore := pymin riskScore 1
  let checksPassed :=
    c1.passed ++ c2.passed ++ c3.passed ++ c4.passed ++ c5.passed ++ c6.passed
  let checksFailed :=
    c1.failed ++ c2.failed ++ c3.failed ++ c4.failed ++ c5.failed ++ c6.failed
  let flagList := c3.flags ++ c4.flags ++ c5.flags
  let verdict := deriveVerdict checksFailed riskScore
  { status := verdict.1
    checks_passed := checksPassed
    checks_failed := checksFailed
    risk_score := riskScore
    flags := flagList
    recommendation := verdict.2 }

/-! ## KYC processor pre-screen (`src/services/kyc_processor.py`) -/

/-- The structured-extraction oracle's output: a JSON-object-like mapping of
field names to string-or-null values (`kyc_data` in the source). -/
abbrev KYCData := List (String × Option String)

/-- Python `kyc_data.get(k)`: `None` when the key is absent or stored null. -/
def kyc_get (d : KYCData) (k : String) : Option String :=
  match d.find? (fun p => p.1 = k) with
  | some p => p.2
  | none => none

/-- Python truthiness of `kyc_data.get(k)`: a present, non-empty string. -/
def kyc_truthy (d : KYCData) (k : String) : Bool :=
  match kyc_get d k with
  | some v => decide (v ≠ "")
  | none => false

/-- `RISK_FACTORS["high_risk_countries"]`. -/
def HIGH_RISK_COUNTRIES : List String :=
  ["Iran", "North Korea", "Syria", "Yemen", "Libya", "Somalia", "South Sudan",
   "Myanmar"]

/-- `RISK_FACTORS["high_risk_occupations"]`. -/
def HIGH_RISK_OCCUPATIONS : List String :=
  ["money exchanger", "casino", "gambling", "cryptocurrency", "arms dealer",
   "precious metals", "real estate agent"]

/-- `RISK_FACTORS["pep_risk_multiplier"]`. -/
def PEP_RISK_MULTIPLIER : ℚ := 2.0

/-- `RISK_FACTORS["missing_field_penalty"]`. -/
def MISSING_FIELD_PENALTY : ℚ := 0.1

/-- The five critical fields of `_calculate_risk_rating`. -/
def CRITICAL_FIELDS : List String :=
  ["customer_name", "date_of_birth", "nationality", "source_of_funds",
   "occupation"]

/-- The score accumulated by `KYCProcessor._calculate_risk_rating`,
mirroring the source statement by statement (sequential accumulation;
the missing-field loop adds the penalty once per missing field). -/
def calculate_risk_score (d : KYCData) : ℚ :=
  let riskScore : ℚ := 0
  let riskScore :=
    if HIGH_RISK_COUNTRIES.contains (pyStrip ((kyc_get d "nationality").getD ""))
    then riskScore + 0.4 else riskScore
  let occupation := pyLower ((kyc_get d "occupation").getD "")
  let riskScore :=
    if HIGH_RISK_OCCUPATIONS.any (fun occ => strHas occupation occ)
    then riskScore + 0.3 else riskScore
  let pep := pyLower ((kyc_get d "politically_exposed").getD "")
  let riskScore :=
    if pep = "yes" ∨ pep = "true" ∨ pep = "1"
    then riskScore * PEP_RISK_MULTIPLIER + 0.3 else riskScore
  riskScore +
    MISSING_FIELD_PENALTY *
      ((CRITICAL_FIELDS.filter (fun f => !kyc_truthy d f)).length : ℚ)

/-- Map a pre-screen score to its rating string. -/
def ratingOfScore (s : ℚ) : String :=
  if (0.7 : ℚ) ≤ s then "very_high"
  else if (0.4 : ℚ) ≤ s then "high"
  else if (0.2 : ℚ) ≤ s then "medium"
  else "low"

/-- `KYCProcessor._calculate_risk_rating`. -/
def calculate_risk_rating (d : KYCData) : String :=
  ratingOfScore (calculate_risk_score d)

/-- High-risk-nationality condition of the pre-screen, as the claim states
it: the (stripped) nationality is in the fixed high-risk country list. -/
def hrNationality (d : KYCData) : Bool :=
  HIGH_RISK_COUNTRIES.contains (pyStrip ((kyc_get d "nationality").getD ""))

/-- High-risk-occupation condition: the lowercased occupation text contains
one of the fixed high-risk occupation substrings. -/
def hrOccupation (d : KYCData) : Bool :=
  HIGH_RISK_OCCUPATIONS.any
    (fun occ => strHas (pyLower ((kyc_get d "occupation").getD "")) occ)

/-- PEP condition: `politically_exposed` is `yes`/`true`/`1`,
case-insensitively. -/
def pepTruthy (d : KYCData) : Prop :=
  pyLower ((kyc_get d "politically_exposed").getD "") = "yes" ∨
  pyLower ((kyc_get d "politically_exposed").getD "") = "true" ∨
  pyLower ((kyc_get d "politically_exposed").getD "") = "1"

instance (d : KYCData) : Decidable (pepTruthy d) := by
  unfold pepTruthy
  infer_instance

/-- Number of critical fields with no usable value (absent, null or empty:
Python falsiness of `kyc_data.get(field)`). -/
def missingCritical (d : KYCData) : ℕ :=
  (CRITICAL_FIELDS.filter (fun f => !kyc_truthy d f)).length

/-- The pre-screen score exactly as the specification words it: start at 0,
add 0.4 for a high-risk nationality and 0.3 for a high-risk occupation,
double then add 0.3 when the PEP flag is truthy, and add 0.1 per missing
critical field; no clamp. -/
def riskScoreFormula (d : KYCData) : ℚ :=
  let base := (if hrNationality d then (0.4 : ℚ) else 0) +
    (if hrOccupation d then (0.3 : ℚ) else 0)
  let afterPep := if pepTruthy d then base * 2.0 + 0.3 else base
  afterPep + 0.1 * (missingCritical d : ℚ)

/-! ## Cheque processor (`src/services/cheque_processor.py`) -/

/-- `ChequeResult` of `schemas.py`. -/
structure ChequeResult where
  payee_name : Option ExtractedField := none
  amount_in_words : Option ExtractedField := none
  amount_in_figures : Option ExtractedField := none
  cheque_date : Option ExtractedField := none
  bank_name : Option ExtractedField := none
  branch_name : Option ExtractedField := none
  account_number : Option ExtractedField := none
  cheque_number : Option ExtractedField := none
  micr_code : Option ExtractedField := none
  ifsc_code : Option ExtractedField := none
  signature_detected : Bool := false
deriving DecidableEq, Repr

/-- A freshly constructed `ChequeResult()` (all slots absent). -/
def chequeInit : ChequeResult := {}

/-- The parsed MICR dictionary returned by `_extract_micr`. -/
structure MicrData where
  cheque_number : String
  routing_code : String
  account_number : String
  full_micr : String
deriving DecidableEq, Repr

/-- Skip one optional literal character (a `[c]?` regex element followed by
something no occurrence of `c` can start, so greedy matching is forced). -/
def skipOpt (c : Char) (cs : List Char) : List Char :=
  match cs with
  | x :: t => if x = c then t else cs
  | [] => []

/-- Match exactly `n` digits (`\d{n}`). -/
def takeDigitsExact (n : ℕ) (cs : List Char) : Option (List Char × List Char) :=
  let run := cs.take n
  if run.length = n && run.all Char.isDigit then some (run, cs.drop n)
  else none

/-- Match `\s+` (the following regex element needs a digit, so the greedy
whitespace run is never given back). -/
def skipWs1 (cs : List Char) : Option (List Char) :=
  let run := cs.takeWhile Char.isWhitespace
  if run.length ≥ 1 then some (cs.drop run.length) else none

/-- Anchored match of the symbol-delimited MICR pattern
`[⑆]?(\d{6})[⑆]?\s*[⑇]?(\d{9})[⑇]?\s*(\d{6,12})`.  Every element of this
pattern is forced (no backtracking can change the outcome), so a
deterministic scan is an exact model. -/
def tryMatchSymbol (cs : List Char) : Option (String × String × String) := do
  let cs := skipOpt '⑆' cs
  let (g1, cs) ← takeDigitsExact 6 cs
  let cs := skipOpt '⑆' cs
  let cs := cs.dropWhile Char.isWhitespace
  let cs := skipOpt '⑇' cs
  let (g2, cs) ← takeDigitsExact 9 cs
  let cs := skipOpt '⑇' cs
  let cs := cs.dropWhile Char.isWhitespace
  let run := cs.takeWhile Char.isDigit
  if run.length ≥ 6 then
    some (String.mk g1, String.mk g2, String.mk (run.take 12))
  else none

/-- Anchored match of the fallback pattern `(\d{6})\s+(\d{9})\s+(\d{6,12})`. -/
def tryMatchPlain (cs : List Char) : Option (String × String × String) := do
  let (g1, cs) ← takeDigitsExact 6 cs
  let cs ← skipWs1 cs
  let (g2, cs) ← takeDigitsExact 9 cs
  let cs ← skipWs1 cs
  let run := cs.takeWhile Char.isDigit
  if run.length ≥ 6 then
    some (String.mk g1, String.mk g2, String.mk (run.take 12))
  else none

/-- `re.search`: try the anchored match at each position, leftmost first. -/
def reSearch (f : List Char → Option (String × String × String)) :
    List Char → Option (String × String × String)
  | [] => f []
  | c :: t =>
    match f (c :: t) with
    | some g => some g
    | none => reSearch f t

/-- `ChequeProcessor._extract_micr`: the symbol pattern is tried first, then
the plain fallback; `none` when neither matches (silent failure). -/
def extract_micr (text : String) : Option MicrData :=
  match reSearch tryMatchSymbol text.toList with
  | some (a, b, c) => some ⟨a, b, c, a ++ " " ++ b ++ " " ++ c⟩
  | none =>
    match reSearch tryMatchPlain text.toList with
    | some (a, b, c) => some ⟨a, b, c, a ++ " " ++ b ++ " " ++ c⟩
    | none => none

/-- `ChequeProcessor.BANK_ROUTING_CODES`. -/
def BANK_ROUTING_CODES : List (String × String) :=
  [("033", "ADCB - Abu Dhabi Commercial Bank"),
   ("044", "Emirates NBD"),
   ("046", "Abu Dhabi Islamic Bank"),
   ("035", "First Abu Dhabi Bank (FAB)"),
   ("050", "Mashreq Bank"),
   ("060", "State Bank of India"),
   ("002", "HDFC Bank"),
   ("004", "ICICI Bank"),
   ("029", "Axis Bank")]

/-- `dict.get(key, "Unknown Bank")` on the routing table. -/
def lookupBank (key : String) : String :=
  match BANK_ROUTING_CODES.find? (fun p => p.1 = key) with
  | some p => p.2
  | none => "Unknown Bank"

/-- The MICR section of `ChequeProcessor.process`: when `_extract_micr`
returns a dictionary, fill the four MICR-derived slots (identifying the bank
from the first three digits of the routing code); otherwise leave the result
untouched. -/
def applyMicr (result : ChequeResult) (textContent : String) : ChequeResult :=
  match extract_micr textContent with
  | some micr =>
    { result with
      cheque_number := some
        { field_name := "cheque_number", value := some micr.cheque_number,
          confidence := 0.90 }
      micr_code := some
        { field_name := "micr_code", value := some micr.full_micr,
          confidence := 0.88 }
      account_number := some
        { field_name := "account_number", value := some micr.account_number,
          confidence := 0.90 }
      bank_name := some
        { field_name := "bank_name",
          value := some (lookupBank (micr.routing_code.take 3)),
          confidence := 0.85 } }
  | none => result

/-! ## Invoice processor (`src/services/invoice_processor.py`) -/

/-- `InvoiceResult` of `schemas.py` (line items flattened to key-value
pairs; their inner typing is irrelevant to the claims below). -/
structure InvoiceResult where
  vendor_name : Option ExtractedField := none
  vendor_address : Option ExtractedField := none
  invoice_number : Option ExtractedField := none
  invoice_date : Option ExtractedField := none
  due_date : Option ExtractedField := none
  subtotal : Option ExtractedField := none
  tax_amount : Option ExtractedField := none
  total_amount : Option ExtractedField := none
  currency : Option ExtractedField := none
  purchase_order : Option ExtractedField := none
  line_items : List (List (String × String)) := []
deriving DecidableEq, Repr

/-- Strip thousands separators and currency symbols:
`value.replace(",", "").replace("$", "")`. -/
def stripMoney (s : String) : String :=
  String.mk (s.toList.filter (fun c => !(c = ',' || c = '$')))

/-- Model of Python `float()` on decimal literals: optional surrounding
whitespace, optional sign, integer digits, optional fractional part (at
least one digit overall).  The source only ever feeds it monetary strings,
for which this is exact. -/
def pyFloat (s : String) : Option ℚ :=
  let cs := (((s.toList.dropWhile Char.isWhitespace).reverse.dropWhile
    Char.isWhitespace).reverse)
  let (sgn, cs) : ℚ × List Char :=
    match cs with
    | '+' :: t => (1, t)
    | '-' :: t => (-1, t)
    | _ => (1, cs)
  let ip := cs.takeWhile Char.isDigit
  let rest := cs.drop ip.length
  match rest with
  | [] => if ip.isEmpty then none else some (sgn * (natOfDigits ip : ℚ))
  | '.' :: t =>
    let fp := t.takeWhile Char.isDigit
    if (t.drop fp.length).isEmpty && !(ip.isEmpty && fp.isEmpty) then
      some (sgn * ((natOfDigits ip : ℚ) +
        (natOfDigits fp : ℚ) / (10 : ℚ) ^ fp.length))
    else none
  | _ => none

/-- Parse one monetary field the way `_validate_totals` does; `none` models
every path into the swallowed `ValueError`/`TypeError`/`AttributeError`. -/
def parseMoney (f : ExtractedField) : Option ℚ :=
  match f.value with
  | some v => pyFloat (stripMoney v)
  | none => none

/-- What `_validate_totals` logs: nothing, or one mismatch warning carrying
the parsed subtotal, tax, expected and actual totals. -/
inductive TotalsLog where
  | mismatchWarning (subtotal tax expected total : ℚ)
deriving DecidableEq, Repr

/-- `InvoiceProcessor._validate_totals`: returns the (unmutated) result
together with the optional warning.  The surrounding `try/except` swallows
every parsing failure, so the function is total and pure. -/
def validate_totals (result : InvoiceResult) :
    InvoiceResult × Option TotalsLog :=
  match result.subtotal, result.tax_amount, result.total_amount with
  | some sf, some tf, some tt =>
    match parseMoney sf, parseMoney tf, parseMoney tt with
    | some subtotal, some tax, some total =>
      let expected := subtotal + tax
      if pyabs (expected - total) > 0.01 then
        (result, some (TotalsLog.mismatchWarning subtotal tax expected total))
      else
        (result, none)
    | _, _, _ => (result, none)
  | _, _, _ => (result, none)

/-! ## Extractor confidence gate (`src/services/extractor.py`) -/

/-- Fixed two-decimal rendering of a non-negative rational, modelling the
`f"{confidence:.2f}"` format of the source. -/
def fmt2 (q : ℚ) : String :=
  let r := q * 100 + 1 / 2
  let n : ℕ := r.num.toNat / r.den
  toString (n / 100) ++ "." ++
    (if n % 100 < 10 then "0" ++ toString (n % 100) else toString (n % 100))

/-- The description string appended for one low-confidence field. -/
def lowDesc (threshold : ℚ) (f : ExtractedField) : String :=
  f.field_name ++ ": " ++ fmt2 f.confidence ++
    " (threshold: " ++ fmt2 threshold ++ ")"

/-- The loop of `DocumentExtractor.check_confidence`, accumulating the
description of every low-confidence non-`text_line` field in input order. -/
def lowConfidenceList (threshold : ℚ) : List ExtractedField → List String
  | [] => []
  | f :: rest =>
    if decide (f.confidence < threshold) && f.field_name ≠ "text_line" then
      lowDesc threshold f :: lowConfidenceList threshold rest
    else
      lowConfidenceList threshold rest

/-- `DocumentExtractor.check_confidence` (the threshold is the configured
`settings.confidence_threshold`, default 0.85). -/
def check_confidence (threshold : ℚ) (fields : List ExtractedField) :
    Bool × List String :=
  let lowConfidence := lowConfidenceList threshold fields
  (lowConfidence.length = 0, lowConfidence)

/-! ## Derived predicates used to state claim hypotheses -/

/-- The string value carried by an optional field (empty when the field or
its value is absent). -/
def fieldValue (o : Option ExtractedField) : String :=
  (o.bind ExtractedField.value).getD ""

/-- Does the selected expiry field carry a non-empty value that one of the
three formats parses to a date strictly before `today`?  This is exactly
the failure condition of `_check_id_validity`. -/
def expiredSel (today : Date) (m : FieldMap) : Bool :=
  match selectExpiry m with
  | some f =>
    match f.value with
    | some v =>
      if v = "" then false
      else
        match parseExpiryFirst v with
        | some d => dateLt d today
        | none => false
    | none => false
  | none => false

/-- A KYC data map with high-risk nationality, high-risk occupation and a
truthy PEP flag and no missing critical field: the pre-screen score is
`(0.4 + 0.3) * 2.0 + 0.3 = 1.7`, above the 1.0 bound the validator clamps
to. -/
def pepExample : KYCData :=
  [("nationality", some "Iran"), ("occupation", some "casino"),
   ("politically_exposed", some "yes"), ("customer_name", some "A"),
   ("date_of_birth", some "1990-01-01"), ("source_of_funds", some "salary")]

/-! ## Concrete example inputs used by witnesses and counterchecks -/

/-- A fully compliant field list: all five required fields present with
clean values and high confidence. -/
def goodFields : List ExtractedField :=
  [{ field_name := "customer_name", value := some "Alice Example",
     confidence := 0.95 },
   { field_name := "date_of_birth", value := some "1990-04-12",
     confidence := 0.93 },
   { field_name := "nationality", value := some "France",
     confidence := 0.92 },
   { field_name := "source_of_funds", value := some "Salary",
     confidence := 0.91 },
   { field_name := "occupation", value := some "Engineer",
     confidence := 0.94 }]

/-- A field list on which every one of the six checks fails, so the six
deltas sum to 1.4 before the clamp. -/
def badFields : List ExtractedField :=
  [{ field_name := "customer_name",
     value := some "Sanctioned_Entity_1 Holdings", confidence := 0.5 },
   { field_name := "nationality", value := some "Iran", confidence := 0.9 },
   { field_name := "politically_exposed", value := some "yes",
     confidence := 0.9 },
   { field_name := "expiry_date", value := some "2020-01-01",
     confidence := 0.9 }]

/-- A field list carrying only an expired ID document. -/
def expiredFields : List ExtractedField :=
  [{ field_name := "expiry_date", value := some "2020-01-01",
     confidence := 0.9 }]

/-- A field list mixing a raw-OCR pseudo-field with a low-confidence
extracted field, for the confidence gate. -/
def mixedFields : List ExtractedField :=
  [{ field_name := "text_line", value := some "raw ocr line",
     confidence := 0.2 },
   { field_name := "customer_name", value := some "Alice",
     confidence := 0.7 }]

/-- The invoice of the spec's cross-check example with a consistent total. -/
def inv105 : InvoiceResult :=
  { subtotal :=
      some { field_name := "SubTotal", value := some "100.00", confidence := 0.9 },
    tax_amount :=
      some { field_name := "TotalTax", value := some "5.00", confidence := 0.9 },
    total_amount :=
      some { field_name := "InvoiceTotal", value := some "105.00", confidence := 0.9 } }

/-- The same invoice with a mismatching total. -/
def inv110 : InvoiceResult :=
  { subtotal :=
      some { field_name := "SubTotal", value := some "100.00", confidence := 0.9 },
    tax_amount :=
      some { field_name := "TotalTax", value := some "5.00", confidence := 0.9 },
    total_amount :=
      some { field_name := "InvoiceTotal", value := some "110.00", confidence := 0.9 } }

/-! ## Helper lemmas -/

/-- Unfolding of the `checks_failed` component. -/
lemma validate_kyc_checks_failed (today : Date)
    (fields : List ExtractedField) (dt : String) :
    (validate_kyc today fields dt).checks_failed =
      (check_field_completeness (buildFieldMap fields)).failed ++
      (check_id_validity today (buildFieldMap fields)).failed ++
      (check_sanctions (buildFieldMap fields)).failed ++
      (check_jurisdiction (buildFieldMap fields)).failed ++
      (check_pep_status (buildFieldMap fields)).failed ++
      (check_confidence_levels fields).failed := rfl

/-- Unfolding of the `checks_passed` component. -/
lemma validate_kyc_checks_passed (today : Date)
    (fields : List ExtractedField) (dt : String) :
    (validate_kyc today fields dt).checks_passed =
      (check_field_completeness (buildFieldMap fields)).passed ++
      (check_id_validity today (buildFieldMap fields)).passed ++
      (check_sanctions (buildFieldMap fields)).passed ++
      (check_jurisdiction (buildFieldMap fields)).passed ++
      (check_pep_status (buildFieldMap fields)).passed ++
      (check_confidence_levels fields).passed := rfl

/-- Unfolding of the `flags` component. -/
lemma validate_kyc_flags (today : Date)
    (fields : List ExtractedField) (dt : String) :
    (validate_kyc today fields dt).flags =
      (check_sanctions (buildFieldMap fields)).flags ++
      (check_jurisdiction (buildFieldMap fields)).flags ++
      (check_pep_status (buildFieldMap fields)).flags := rfl

/-- Unfolding of the `risk_score` component. -/
lemma validate_kyc_risk_score (today : Date)
    (fields : List ExtractedField) (dt : String) :
    (validate_kyc today fields dt).risk_score =
      pymin ((if (check_field_completeness (buildFieldMap fields)).ok then 0
              else 0.15) +
           (if (check_id_validity today (buildFieldMap fields)).ok then 0
              else 0.1) +
           (if (check_sanctions (buildFieldMap fields)).ok then 0 else 0.5) +
           (if (check_jurisdiction (buildFieldMap fields)).ok then 0
              else 0.3) +
           (if (check_pep_status (buildFieldMap fields)).ok then 0
              else 0.25) +
           (if (check_confidence_levels fields).ok then 0 else 0.1)) 1 := rfl

/-- Unfolding of the `status` and `recommendation` components. -/
lemma validate_kyc_verdict (today : Date)
    (fields : List ExtractedField) (dt : String) :
    (validate_kyc today fields dt).status =
      (deriveVerdict (validate_kyc today fields dt).checks_failed
        (validate_kyc today fields dt).risk_score).1 ∧
    (validate_kyc today fields dt).recommendation =
      (deriveVerdict (validate_kyc today fields dt).checks_failed
        (validate_kyc today fields dt).risk_score).2 := ⟨rfl, rfl⟩

/-- A check contributes exactly one descriptive string: to `checks_passed`
when it passes or skips, to `checks_failed` when it fails. -/
def oneEntry (c : CheckOut) : Prop :=
  (c.ok = true → c.passed.length = 1 ∧ c.failed = []) ∧
  (c.ok = false → c.failed.length = 1 ∧ c.passed = [])

lemma oneEntry_completeness (m : FieldMap) :
    oneEntry (check_field_completeness m) := by
  unfold oneEntry check_field_completeness
  try dsimp only
  split <;> simp

lemma oneEntry_id_validity (today : Date) (m : FieldMap) :
    oneEntry (check_id_validity today m) := by
  unfold oneEntry check_id_validity
  try dsimp only
  split <;> (try split) <;> (try split) <;> (try split) <;> (try split) <;> simp

lemma oneEntry_sanctions (m : FieldMap) : oneEntry (check_sanctions m) := by
  unfold oneEntry check_sanctions
  try dsimp only
  split <;> (try split) <;> (try split) <;> (try split) <;> simp

lemma oneEntry_jurisdiction (m : FieldMap) :
    oneEntry (check_jurisdiction m) := by
  unfold oneEntry check_jurisdiction
  try dsimp only
  split <;> (try split) <;> (try split) <;> (try split) <;> (try split) <;> simp

lemma oneEntry_pep (m : FieldMap) : oneEntry (check_pep_status m) := by
  unfold oneEntry check_pep_status
  try dsimp only
  split <;> (try split) <;> (try split) <;> (try split) <;> simp

lemma oneEntry_confidence (fields : List ExtractedField) :
    oneEntry (check_confidence_levels fields) := by
  unfold oneEntry check_confidence_levels
  try dsimp only
  split <;> simp

/-- Total contribution of a check to the two evidence lists is one line. -/
lemma oneEntry_total {c : CheckOut} (h : oneEntry c) :
    c.passed.length + c.failed.length = 1 := by
  rcases h with ⟨hT, hF⟩
  cases hok : c.ok
  · rcases hF hok with ⟨h1, h2⟩
    simp [h1, h2]
  · rcases hT hok with ⟨h1, h2⟩
    simp [h1, h2]

/-- The sanctions check emits either no flag, or exactly `SANCTIONS_HIT`
together with a failure entry. -/
lemma flags_sanctions (m : FieldMap) :
    (check_sanctions m).flags = [] ∨
    ((check_sanctions m).flags = ["SANCTIONS_HIT"] ∧
      (check_sanctions m).failed ≠ []) := by
  unfold check_sanctions
  try dsimp only
  split <;> (try split) <;> (try split) <;> (try split) <;> simp

/-- The jurisdiction check emits no flag or exactly one of the two FATF
flags, each with a failure entry. -/
lemma flags_jurisdiction (m : FieldMap) :
    (check_jurisdiction m).flags = [] ∨
    ((check_jurisdiction m).flags = ["FATF_HIGH_RISK"] ∧
      (check_jurisdiction m).failed ≠ []) ∨
    ((check_jurisdiction m).flags = ["FATF_MONITORING"] ∧
      (check_jurisdiction m).failed ≠ []) := by
  unfold check_jurisdiction
  try dsimp only
  split <;> (try split) <;> (try split) <;> (try split) <;> (try split) <;> simp

/-- The PEP check emits either no flag, or exactly `PEP_IDENTIFIED` together
with a failure entry. -/
lemma flags_pep (m : FieldMap) :
    (check_pep_status m).flags = [] ∨
    ((check_pep_status m).flags = ["PEP_IDENTIFIED"] ∧
      (check_pep_status m).failed ≠ []) := by
  unfold check_pep_status
  try dsimp only
  split <;> (try split) <;> (try split) <;> (try split) <;> simp

/-- Characterization of the verdict branch. -/
lemma deriveVerdict_spec (cf : List String) (rs : ℚ) :
    ((deriveVerdict cf rs).1 = ValidationStatus.passed ↔ cf = []) ∧
    (cf = [] →
      (deriveVerdict cf rs).2 = "APPROVED — All compliance checks passed.") ∧
    (cf ≠ [] →
      (((0.5 : ℚ) ≤ rs →
        (deriveVerdict cf rs).1 = ValidationStatus.failed ∧
        (deriveVerdict cf rs).2 =
          "REJECT — High-risk indicators detected. Escalate to compliance.") ∧
      (rs < (0.5 : ℚ) →
        (deriveVerdict cf rs).1 = ValidationStatus.needs_manual_review ∧
        (deriveVerdict cf rs).2 =
          "REVIEW — Some checks failed. Manual review required by compliance officer."))) := by
  unfold deriveVerdict
  rcases cf with _ | ⟨a, t⟩
  · simp
  · simp only [List.isEmpty_cons, Bool.false_eq_true, if_false]
    by_cases h : (0.5 : ℚ) ≤ rs
    · rw [if_pos h]
      exact ⟨by simp, by simp,
        fun _ => ⟨fun _ => ⟨rfl, rfl⟩,
          fun hlt => absurd h (not_le.mpr hlt)⟩⟩
    · rw [if_neg h]
      exact ⟨by simp, by simp,
        fun _ => ⟨fun hge => absurd hge h, fun _ => ⟨rfl, rfl⟩⟩⟩

/-- If all required fields are present with non-empty values, the
completeness check passes. -/
lemma completeness_pass {m : FieldMap}
    (h : ∀ k ∈ REQUIRED_KYC_FIELDS, presentNonEmpty (m k) = true) :
    check_field_completeness m =
      ⟨true, ["All required KYC fields present"], [], []⟩ := by
  have h1 := h "customer_name" (by simp [REQUIRED_KYC_FIELDS])
  have h2 := h "date_of_birth" (by simp [REQUIRED_KYC_FIELDS])
  have h3 := h "nationality" (by simp [REQUIRED_KYC_FIELDS])
  have h4 := h "source_of_funds" (by simp [REQUIRED_KYC_FIELDS])
  have h5 := h "occupation" (by simp [REQUIRED_KYC_FIELDS])
  unfold check_field_completeness REQUIRED_KYC_FIELDS
  simp [List.filter_cons, h1, h2, h3, h4, h5]

/-- If the selected expiry field is not an expired date, the ID-validity
check passes. -/
lemma id_pass {today : Date} {m : FieldMap}
    (h : expiredSel today m = false) :
    (check_id_validity today m).ok = true ∧
    (check_id_validity today m).failed = [] := by
  unfold expiredSel at h
  cases hsel : selectExpiry m with
  | none => simp [check_id_validity, hsel]
  | some f =>
    simp only [hsel] at h
    cases hval : f.value with
    | none => simp [check_id_validity, hsel, hval]
    | some v =>
      simp only [hval] at h
      by_cases hv : v = ""
      · simp [check_id_validity, hsel, hval, hv]
      · rw [if_neg hv] at h
        cases hparse : parseExpiryFirst v with
        | none => simp [check_id_validity, hsel, hval, hv, hparse]
        | some d =>
          simp only [hparse] at h
          simp [check_id_validity, hsel, hval, hv, hparse, h]

/-- If the customer name is present, non-empty and contains no sanctions
keyword, the sanctions check passes cleanly. -/
lemma sanctions_pass {m : FieldMap}
    (hname : presentNonEmpty (m "customer_name") = true)
    (h : ∀ kw ∈ SANCTIONS_KEYWORDS,
      strHas (pyLower (fieldValue (m "customer_name"))) (pyLower kw) = false) :
    (check_sanctions m).ok = true ∧ (check_sanctions m).failed = [] ∧
    (check_sanctions m).flags = [] := by
  cases hsel : m "customer_name" with
  | none => simp [presentNonEmpty, hsel] at hname
  | some f =>
    cases hval : f.value with
    | none => simp [presentNonEmpty, hsel, hval] at hname
    | some v =>
      have hv : ¬ v = "" := by
        simpa [presentNonEmpty, hsel, hval] using hname
      have hany : SANCTIONS_KEYWORDS.any
          (fun s => strHas (pyLower v) (pyLower s)) = false := by
        rw [List.any_eq_false]
        intro kw hkw
        have h2 := h kw hkw
        simpa [fieldValue, hsel, hval] using h2
      simp [check_sanctions, orO, hsel, hval, hv, hany]

/-- If the nationality is on neither FATF list, the jurisdiction check
passes (present or not). -/
lemma jurisdiction_pass {m : FieldMap}
    (hH : FATF_HIGH_RISK.contains
      (pyStrip (fieldValue (m "nationality"))) = false)
    (hM : FATF_INCREASED_MONITORING.contains
      (pyStrip (fieldValue (m "nationality"))) = false) :
    (check_jurisdiction m).ok = true ∧ (check_jurisdiction m).failed = [] ∧
    (check_jurisdiction m).flags = [] := by
  cases hsel : m "nationality" with
  | none => simp [check_jurisdiction, hsel]
  | some f =>
    cases hval : f.value with
    | none => simp [check_jurisdiction, hsel, hval]
    | some v =>
      by_cases hv : v = ""
      · simp [check_jurisdiction, hsel, hval, hv]
      · have hH2 : ¬ (pyStrip v ∈ FATF_HIGH_RISK) := by
          simpa [fieldValue, hsel, hval] using hH
        have hM2 : ¬ (pyStrip v ∈ FATF_INCREASED_MONITORING) := by
          simpa [fieldValue, hsel, hval] using hM
        simp [check_jurisdiction, hsel, hval, hv, hH2, hM2]

/-- If the PEP field is absent or not truthy, the PEP check passes. -/
lemma pep_pass {m : FieldMap}
    (h : ¬ (pyLower (fieldValue (m "politically_exposed")) = "yes" ∨
      pyLower (fieldValue (m "politically_exposed")) = "true" ∨
      pyLower (fieldValue (m "politically_exposed")) = "1")) :
    (check_pep_status m).ok = true ∧ (check_pep_status m).failed = [] ∧
    (check_pep_status m).flags = [] := by
  cases hsel : m "politically_exposed" with
  | none => simp [check_pep_status, hsel]
  | some f =>
    cases hval : f.value with
    | none => simp [check_pep_status, hsel, hval]
    | some v =>
      have h2 : ¬ (pyLower v = "yes" ∨ pyLower v = "true" ∨
          pyLower v = "1") := by
        simpa [fieldValue, hsel, hval] using h
      by_cases hv : v = ""
      · simp [check_pep_status, hsel, hval, hv]
      · simp [check_pep_status, hsel, hval, hv, h2]

/-- If every required-name field in the list has confidence at least 0.80,
the confidence check passes. -/
lemma confidence_pass {fields : List ExtractedField}
    (h : ∀ f ∈ fields, REQUIRED_KYC_FIELDS.contains f.field_name = true →
      (0.80 : ℚ) ≤ f.confidence) :
    (check_confidence_levels fields).ok = true ∧
    (check_confidence_levels fields).failed = [] := by
  unfold check_confidence_levels
  have hfilter : fields.filter
      (fun f => decide (f.confidence < 0.80) &&
        REQUIRED_KYC_FIELDS.contains f.field_name) = [] := by
    rw [List.filter_eq_nil_iff]
    intro f hf
    cases hc : REQUIRED_KYC_FIELDS.contains f.field_name
    · simp [hc]
    · have := h f hf hc
      simp [hc, not_lt.mpr this]
  rw [hfilter]
  simp

/-- The confidence-gate loop is the filter-then-describe of the kept
fields, in input order. -/
lemma lowConfidenceList_eq (threshold : ℚ) (fields : List ExtractedField) :
    lowConfidenceList threshold fields =
      (fields.filter (fun f => decide (f.confidence < threshold) &&
        decide (f.field_name ≠ "text_line"))).map (lowDesc threshold) := by
  induction fields with
  | nil => rfl
  | cons f t ih =>
    by_cases h : f.confidence < threshold ∧ ¬ f.field_name = "text_line"
    · simp [lowConfidenceList, List.filter_cons, h, ih]
    · simp [lowConfidenceList, List.filter_cons, h, ih]

/-! ## Claim theorems -/

/-- C1: for every list of extracted fields and every document_type string,
the `ValidationResult` returned by `validate_kyc` has status `passed` iff
`checks_failed` is empty; when `checks_failed` is non-empty the status is
`failed` with the reject-escalate recommendation if the risk score is at
least 0.5 and `needs_manual_review` with the review recommendation
otherwise, and the empty case carries the approve recommendation. -/
theorem C1_verdict_derivation (today : Date) (fields : List ExtractedField)
    (document_type : String) :
    ((validate_kyc today fields document_type).status =
        ValidationStatus.passed ↔
      (validate_kyc today fields document_type).checks_failed = []) ∧
    ((validate_kyc today fields document_type).checks_failed = [] →
      (validate_kyc today fields document_type).recommendation =
        "APPROVED — All compliance checks passed.") ∧
    ((validate_kyc today fields document_type).checks_failed ≠ [] →
      (((0.5 : ℚ) ≤ (validate_kyc today fields document_type).risk_score →
        (validate_kyc today fields document_type).status =
          ValidationStatus.failed ∧
        (validate_kyc today fields document_type).recommendation =
          "REJECT — High-risk indicators detected. Escalate to compliance.") ∧
      ((validate_kyc today fields document_type).risk_score < (0.5 : ℚ) →
        (validate_kyc today fields document_type).status =
          ValidationStatus.needs_manual_review ∧
        (validate_kyc today fields document_type).recommendation =
          "REVIEW — Some checks failed. Manual review required by compliance officer."))) := by
  obtain ⟨hs, hr⟩ := validate_kyc_verdict today fields document_type
  rw [hs, hr]
  exact deriveVerdict_spec _ _

/-- Witness for C1 at a concrete all-failing input: the checks fail, the
clamped risk score reaches the 0.5 threshold, and the verdict is `failed`
with the reject recommendation. -/
theorem C1_verdict_derivation_witness :
    (validate_kyc ⟨2025, 1, 1⟩ badFields "kyc_form").status =
      ValidationStatus.failed ∧
    (validate_kyc ⟨2025, 1, 1⟩ badFields "kyc_form").recommendation =
      "REJECT — High-risk indicators detected. Escalate to compliance." := by
  have h := C1_verdict_derivation ⟨2025, 1, 1⟩ badFields "kyc_form"
  exact (h.2.2 (by decide)).1 (by decide)

/-- C2: the risk score returned by `validate_kyc` always lies in `[0, 1]`;
at the concrete input where all six checks fail (deltas summing to 1.4) the
returned score is exactly the clamp value 1. -/
theorem C2_risk_score_clamped (today : Date) (fields : List ExtractedField)
    (document_type : String) :
    (0 ≤ (validate_kyc today fields document_type).risk_score ∧
      (validate_kyc today fields document_type).risk_score ≤ 1) ∧
    (validate_kyc ⟨2025, 1, 1⟩ badFields "kyc_form").risk_score = 1 := by
  refine ⟨⟨?_, ?_⟩, by decide⟩
  · rw [validate_kyc_risk_score]
    refine le_min ?_ (by norm_num)
    split_ifs <;> norm_num
  · rw [validate_kyc_risk_score]
    exact min_le_right _ _

/-- C4: the pre-screen `_calculate_risk_rating` computes exactly the claimed
score — 0.4 for high-risk nationality, plus 0.3 for a high-risk occupation
substring (once), doubled and increased by 0.3 on a truthy PEP flag, plus
0.1 per critical field without a usable value — with no clamp (the concrete
high-risk PEP example reaches 1.7) and the stated rating thresholds. -/
theorem C4_prescreen_risk_rating (d : KYCData) :
    calculate_risk_score d = riskScoreFormula d ∧
    calculate_risk_rating d = ratingOfScore (riskScoreFormula d) ∧
    calculate_risk_score pepExample = 1.7 ∧
    calculate_risk_rating pepExample = "very_high" := by
  have hscore : calculate_risk_score d = riskScoreFormula d := by
    unfold calculate_risk_score riskScoreFormula hrNationality hrOccupation
      pepTruthy missingCritical PEP_RISK_MULTIPLIER MISSING_FIELD_PENALTY
    dsimp only
    by_cases hN : (HIGH_RISK_COUNTRIES.contains
        (pyStrip ((kyc_get d "nationality").getD ""))) = true <;>
    by_cases hO : (HIGH_RISK_OCCUPATIONS.any
        (fun occ =>
          strHas (pyLower ((kyc_get d "occupation").getD "")) occ)) = true <;>
    by_cases hP : (pyLower ((kyc_get d "politically_exposed").getD "") = "yes" ∨
        pyLower ((kyc_get d "politically_exposed").getD "") = "true" ∨
        pyLower ((kyc_get d "politically_exposed").getD "") = "1") <;>
      simp only [hN, hO, hP, if_pos, if_neg, if_true, if_false,
        Bool.not_eq_true] <;>
      ring
  refine ⟨hscore, ?_, by decide, by decide⟩
  unfold calculate_risk_rating ratingOfScore
  rw [hscore]

/-- C5: the two evidence lists of every `validate_kyc` result together hold
exactly six entries, and each of the six checks contributes exactly one
descriptive string — to `checks_passed` when it passes or skips, to
`checks_failed` when it fails — never to both. -/
theorem C5_checks_partition (today : Date) (fields : List ExtractedField)
    (document_type : String) :
    ((validate_kyc today fields document_type).checks_passed.length +
      (validate_kyc today fields document_type).checks_failed.length = 6) ∧
    oneEntry (check_field_completeness (buildFieldMap fields)) ∧
    oneEntry (check_id_validity today (buildFieldMap fields)) ∧
    oneEntry (check_sanctions (buildFieldMap fields)) ∧
    oneEntry (check_jurisdiction (buildFieldMap fields)) ∧
    oneEntry (check_pep_status (buildFieldMap fields)) ∧
    oneEntry (check_confidence_levels fields) := by
  refine ⟨?_, oneEntry_completeness _, oneEntry_id_validity _ _,
    oneEntry_sanctions _, oneEntry_jurisdiction _, oneEntry_pep _,
    oneEntry_confidence _⟩
  rw [validate_kyc_checks_passed, validate_kyc_checks_failed]
  have t1 := oneEntry_total (oneEntry_completeness (buildFieldMap fields))
  have t2 := oneEntry_total (oneEntry_id_validity today (buildFieldMap fields))
  have t3 := oneEntry_total (oneEntry_sanctions (buildFieldMap fields))
  have t4 := oneEntry_total (oneEntry_jurisdiction (buildFieldMap fields))
  have t5 := oneEntry_total (oneEntry_pep (buildFieldMap fields))
  have t6 := oneEntry_total (oneEntry_confidence fields)
  simp only [List.length_append]
  omega

/-- Witness for C5: the partition at a concrete passing run, with the
completeness check contributing its single entry to the passed list. -/
theorem C5_checks_partition_witness :
    ((validate_kyc ⟨2025, 10, 12⟩ goodFields "kyc_form").checks_passed.length +
      (validate_kyc ⟨2025, 10, 12⟩ goodFields "kyc_form").checks_failed.length
        = 6) ∧
    (check_field_completeness (buildFieldMap goodFields)).passed.length = 1 ∧
    (check_field_completeness (buildFieldMap goodFields)).failed = [] := by
  have h := C5_checks_partition ⟨2025, 10, 12⟩ goodFields "kyc_form"
  have hok : (check_field_completeness (buildFieldMap goodFields)).ok = true :=
    by decide
  exact ⟨h.1, (h.2.1.1 hok).1, (h.2.1.1 hok).2⟩

/-- C6: the ID-validity check is total and fails (adding its single
`checks_failed` entry, and hence its 0.10 delta in `validate_kyc`) exactly
when the selected `expiry_date`/`id_expiry` field has a non-empty value
that one of the three formats — tried in order `%Y-%m-%d`, `%d/%m/%Y`,
`%m/%d/%Y`, first success deciding — parses to a date strictly before
today; in every other case it appends one pass entry instead.  The last
conjunct pins the format order: `05/06/2021` is day-month-year. -/
theorem C6_id_validity_characterization (today : Date) (m : FieldMap) :
    ((check_id_validity today m).ok = false ↔
      ∃ f v d, selectExpiry m = some f ∧ f.value = some v ∧ v ≠ "" ∧
        parseExpiryFirst v = some d ∧ dateLt d today = true) ∧
    ((check_id_validity today m).ok = false →
      (check_id_validity today m).failed.length = 1 ∧
      (check_id_validity today m).passed = []) ∧
    ((check_id_validity today m).ok = true →
      (check_id_validity today m).failed = [] ∧
      (check_id_validity today m).passed.length = 1) ∧
    parseExpiryFirst "05/06/2021" = some ⟨2021, 6, 5⟩ := by
  refine ⟨?_, (oneEntry_id_validity today m).2,
    fun hok => ⟨((oneEntry_id_validity today m).1 hok).2,
      ((oneEntry_id_validity today m).1 hok).1⟩,
    by decide⟩
  cases hsel : selectExpiry m with
  | none => simp [check_id_validity, hsel]
  | some f =>
    cases hval : f.value with
    | none => simp [check_id_validity, hsel, hval]
    | some v =>
      by_cases hv : v = ""
      · simp [check_id_validity, hsel, hval, hv]
      · cases hparse : parseExpiryFirst v with
        | none => simp [check_id_validity, hsel, hval, hv, hparse]
        | some d =>
          by_cases hlt : dateLt d today = true
          · simp only [check_id_validity, hsel, hval, if_neg hv, hparse,
              if_pos hlt]
            exact iff_of_true trivial ⟨f, v, d, rfl, hval, hv, hparse, hlt⟩
          · simp [check_id_validity, hsel, hval, hv, hparse, hlt]

/-- Witness for C6 at a concrete expired document: the check fails with one
failure entry and no pass entry. -/
theorem C6_id_validity_characterization_witness :
    (check_id_validity ⟨2025, 1, 1⟩ (buildFieldMap expiredFields)).ok =
      false ∧
    (check_id_validity ⟨2025, 1, 1⟩
      (buildFieldMap expiredFields)).failed.length = 1 ∧
    (check_id_validity ⟨2025, 1, 1⟩ (buildFieldMap expiredFields)).passed =
      [] := by
  have h := C6_id_validity_characterization ⟨2025, 1, 1⟩
    (buildFieldMap expiredFields)
  have hok : (check_id_validity ⟨2025, 1, 1⟩
      (buildFieldMap expiredFields)).ok = false := by decide
  exact ⟨hok, (h.2.1 hok).1, (h.2.1 hok).2⟩

/-- C7: on the spec's MICR example the extractor returns the three groups
and the synthesized full MICR string, the processor resolves the unknown
routing prefix `789` to "Unknown Bank", and whenever neither pattern
matches, `_extract_micr` returns `none` and all four MICR slots of the
cheque result stay absent. -/
theorem C7_micr_extraction (t : String) :
    extract_micr "123456 789012345 1234567890" =
      some ⟨"123456", "789012345", "1234567890",
        "123456 789012345 1234567890"⟩ ∧
    (applyMicr chequeInit "123456 789012345 1234567890").bank_name =
      some { field_name := "bank_name", value := some "Unknown Bank", confidence := 0.85 } ∧
    (extract_micr t = none →
      (applyMicr chequeInit t).cheque_number = none ∧
      (applyMicr chequeInit t).micr_code = none ∧
      (applyMicr chequeInit t).account_number = none ∧
      (applyMicr chequeInit t).bank_name = none) := by
  refine ⟨by decide, by decide, fun h => ?_⟩
  simp [applyMicr, h, chequeInit]

/-- Witness for C7: a text with no MICR-like digit groups leaves every MICR
slot absent. -/
theorem C7_micr_extraction_witness :
    (applyMicr chequeInit "pay to the order of alice").cheque_number = none ∧
    (applyMicr chequeInit "pay to the order of alice").bank_name = none := by
  have h := C7_micr_extraction "pay to the order of alice"
  have hn : extract_micr "pay to the order of alice" = none := by decide
  exact ⟨(h.2.2 hn).1, (h.2.2 hn).2.2.2⟩

/-- C8: `_validate_totals` never mutates the invoice result and never
raises: it emits a warning exactly when subtotal, tax and total are all
present with values that parse (after stripping commas and dollar signs)
and `|subtotal + tax - total| > 0.01`; in every other case the cross-check
is silently skipped.  At the spec's concrete inputs: 100.00 + 5.00 vs
105.00 gives no warning, vs 110.00 a warning with the result unchanged. -/
theorem C8_validate_totals_frame (r : InvoiceResult) :
    (validate_totals r).1 = r ∧
    ((validate_totals r).2 ≠ none ↔
      ∃ sf tf tt s t tot, r.subtotal = some sf ∧ r.tax_amount = some tf ∧
        r.total_amount = some tt ∧ parseMoney sf = some s ∧
        parseMoney tf = some t ∧ parseMoney tt = some tot ∧
        pyabs (s + t - tot) > 0.01) ∧
    validate_totals inv105 = (inv105, none) ∧
    (validate_totals inv110).1 = inv110 ∧
    (validate_totals inv110).2 =
      some (TotalsLog.mismatchWarning 100 5 105 110) := by
  refine ⟨?_, ?_, by decide, by decide, by decide⟩
  · unfold validate_totals
    dsimp only
    repeat' split
    all_goals rfl
  · rcases hs : r.subtotal with _ | sf
    · simp [validate_totals, hs]
    rcases ht : r.tax_amount with _ | tf
    · simp [validate_totals, hs, ht]
    rcases htt : r.total_amount with _ | tt
    · simp [validate_totals, hs, ht, htt]
    rcases hp1 : parseMoney sf with _ | s
    · simp [validate_totals, hs, ht, htt, hp1]
    rcases hp2 : parseMoney tf with _ | t
    · simp [validate_totals, hs, ht, htt, hp1, hp2]
    rcases hp3 : parseMoney tt with _ | tot
    · simp [validate_totals, hs, ht, htt, hp1, hp2, hp3]
    by_cases habs : pyabs (s + t - tot) > 0.01
    · simp [validate_totals, hs, ht, htt, hp1, hp2, hp3, habs]
    · simp [validate_totals, hs, ht, htt, hp1, hp2, hp3, habs]

/-- Witness for C8: the mismatching invoice satisfies the warning condition
through the characterization, and the frame equality holds there. -/
theorem C8_validate_totals_frame_witness :
    (validate_totals inv110).1 = inv110 ∧
    (validate_totals inv110).2 ≠ none := by
  have h := C8_validate_totals_frame inv110
  refine ⟨h.1, h.2.1.mpr ?_⟩
  refine ⟨{ field_name := "SubTotal", value := some "100.00", confidence := 0.9 },
    { field_name := "TotalTax", value := some "5.00", confidence := 0.9 },
    { field_name := "InvoiceTotal", value := some "110.00", confidence := 0.9 },
    100, 5, 110, rfl, rfl, rfl, by decide, by decide, by decide, by decide⟩

/-- C9: `check_confidence` is pure and returns, in input order, one
description for exactly the fields other than `text_line` pseudo-fields
whose confidence is below the threshold, with `all_ok` true iff that list
is empty; `text_line` fields never contribute a description. -/
theorem C9_check_confidence_gate (threshold : ℚ)
    (fields : List ExtractedField) :
    (check_confidence threshold fields).2 =
      (fields.filter (fun f => decide (f.confidence < threshold) &&
        decide (f.field_name ≠ "text_line"))).map (lowDesc threshold) ∧
    ((check_confidence threshold fields).1 = true ↔
      (check_confidence threshold fields).2 = []) ∧
    (∀ s ∈ (check_confidence threshold fields).2,
      ∃ f, f ∈ fields ∧ f.field_name ≠ "text_line" ∧
        f.confidence < threshold ∧ s = lowDesc threshold f) := by
  have he := lowConfidenceList_eq threshold fields
  refine ⟨he, ?_, ?_⟩
  · show decide ((lowConfidenceList threshold fields).length = 0) = true ↔ _
    simp only [decide_eq_true_eq, List.length_eq_zero]
    exact Iff.rfl
  · intro s hs
    rw [show (check_confidence threshold fields).2 =
      lowConfidenceList threshold fields from rfl, he] at hs
    simp only [List.mem_map, List.mem_filter] at hs
    obtain ⟨f, ⟨hf, hcond⟩, hdesc⟩ := hs
    simp only [Bool.and_eq_true, decide_eq_true_eq] at hcond
    exact ⟨f, hf, hcond.2, hcond.1, hdesc.symm⟩

/-- Witness for C9: a `text_line` field with confidence 0.2 is excluded
while a `customer_name` field with confidence 0.7 is reported. -/
theorem C9_check_confidence_gate_witness :
    (check_confidence 0.85 mixedFields).2 =
      [lowDesc 0.85
        { field_name := "customer_name", value := some "Alice", confidence := 0.7 }] ∧
    (check_confidence 0.85 mixedFields).1 = false := by
  have h := C9_check_confidence_gate 0.85 mixedFields
  constructor
  · rw [h.1]
    decide
  · decide

/-- C10: the flags of every `validate_kyc` result form a duplicate-free
subset of the four known flags, the two FATF flags are mutually exclusive,
and a non-empty flag list implies a non-empty `checks_failed` list. -/
theorem C10_flags_invariant (today : Date) (fields : List ExtractedField)
    (document_type : String) :
    (∀ x ∈ (validate_kyc today fields document_type).flags,
      x = "SANCTIONS_HIT" ∨ x = "FATF_HIGH_RISK" ∨ x = "FATF_MONITORING" ∨
        x = "PEP_IDENTIFIED") ∧
    (validate_kyc today fields document_type).flags.Nodup ∧
    ¬ ("FATF_HIGH_RISK" ∈ (validate_kyc today fields document_type).flags ∧
       "FATF_MONITORING" ∈ (validate_kyc today fields document_type).flags) ∧
    ((validate_kyc today fields document_type).flags ≠ [] →
      (validate_kyc today fields document_type).checks_failed ≠ []) := by
  rw [validate_kyc_flags, validate_kyc_checks_failed]
  rcases flags_sanctions (buildFieldMap fields) with h3 | ⟨h3, h3f⟩ <;>
  rcases flags_jurisdiction (buildFieldMap fields) with h4 | ⟨h4, h4f⟩ | ⟨h4, h4f⟩ <;>
  rcases flags_pep (buildFieldMap fields) with h5 | ⟨h5, h5f⟩ <;>
    rw [h3, h4, h5] <;>
    refine ⟨?_, ?_, ?_, ?_⟩ <;>
    simp_all [List.append_eq_nil]

/-- Witness for C10 on the all-failing input: flags are emitted, the failed
list is non-empty accordingly, and the flags carry no duplicate. -/
theorem C10_flags_invariant_witness :
    (validate_kyc ⟨2025, 1, 1⟩ badFields "kyc_form").flags ≠ [] ∧
    (validate_kyc ⟨2025, 1, 1⟩ badFields "kyc_form").checks_failed ≠ [] ∧
    (validate_kyc ⟨2025, 1, 1⟩ badFields "kyc_form").flags.Nodup := by
  have h := C10_flags_invariant ⟨2025, 1, 1⟩ badFields "kyc_form"
  have hne : (validate_kyc ⟨2025, 1, 1⟩ badFields "kyc_form").flags ≠ [] := by
    decide
  exact ⟨hne, h.2.2.2 hne, h.2.1⟩

/-- C3: whenever all five required KYC fields are present with non-empty
values, the customer name contains no sanctions keyword, the nationality is
on neither FATF list, the PEP flag is absent or not truthy, no selected
expiry value parses to a date before today, and every required-name field
has confidence at least 0.80, `validate_kyc` returns status `passed` with
empty `checks_failed` and risk score below 0.2. -/
theorem C3_compliant_fields_pass (today : Date)
    (fields : List ExtractedField) (document_type : String)
    (h1 : ∀ k ∈ REQUIRED_KYC_FIELDS,
      presentNonEmpty (buildFieldMap fields k) = true)
    (h2 : ∀ kw ∈ SANCTIONS_KEYWORDS,
      strHas (pyLower (fieldValue (buildFieldMap fields "customer_name")))
        (pyLower kw) = false)
    (h3 : FATF_HIGH_RISK.contains
      (pyStrip (fieldValue (buildFieldMap fields "nationality"))) = false)
    (h4 : FATF_INCREASED_MONITORING.contains
      (pyStrip (fieldValue (buildFieldMap fields "nationality"))) = false)
    (h5 : ¬ (pyLower (fieldValue
        (buildFieldMap fields "politically_exposed")) = "yes" ∨
      pyLower (fieldValue
        (buildFieldMap fields "politically_exposed")) = "true" ∨
      pyLower (fieldValue
        (buildFieldMap fields "politically_exposed")) = "1"))
    (h6 : expiredSel today (buildFieldMap fields) = false)
    (h7 : ∀ f ∈ fields, REQUIRED_KYC_FIELDS.contains f.field_name = true →
      (0.80 : ℚ) ≤ f.confidence) :
    (validate_kyc today fields document_type).status =
      ValidationStatus.passed ∧
    (validate_kyc today fields document_type).checks_failed = [] ∧
    (validate_kyc today fields document_type).risk_score < 0.2 := by
  have hc1 := completeness_pass h1
  have hc2 := id_pass h6
  have hc3 := sanctions_pass
    (h1 "customer_name" (by simp [REQUIRED_KYC_FIELDS])) h2
  have hc4 := jurisdiction_pass h3 h4
  have hc5 := pep_pass h5
  have hc6 := confidence_pass h7
  have hfailed : (validate_kyc today fields document_type).checks_failed =
      [] := by
    rw [validate_kyc_checks_failed, hc1]
    simp [hc2.2, hc3.2.1, hc4.2.1, hc5.2.1, hc6.2]
  have hrisk : (validate_kyc today fields document_type).risk_score = 0 := by
    rw [validate_kyc_risk_score, hc1]
    simp only [hc2.1, hc3.1, hc4.1, hc5.1, hc6.1]
    norm_num [pymin]
  refine ⟨?_, hfailed, ?_⟩
  · obtain ⟨hs, _⟩ := validate_kyc_verdict today fields document_type
    rw [hs, hfailed]
    simp [deriveVerdict]
  · rw [hrisk]
    norm_num

/-- Witness for C3 at the concrete compliant field list. -/
theorem C3_compliant_fields_pass_witness :
    (validate_kyc ⟨2025, 10, 12⟩ goodFields "kyc_form").status =
      ValidationStatus.passed ∧
    (validate_kyc ⟨2025, 10, 12⟩ goodFields "kyc_form").checks_failed = [] ∧
    (validate_kyc ⟨2025, 10, 12⟩ goodFields "kyc_form").risk_score < 0.2 :=
  C3_compliant_fields_pass ⟨2025, 10, 12⟩ goodFields "kyc_form" (by decide)
    (by decide) (by decide) (by decide) (by decide) (by decide) (by decide)

end BankingPipeline
